import Mathlib

/-!
Shallow embedding of the Satanpit/clipboard library (src/clipboard.js):
its debounced event emitter, custom event values, driver catalog, driver
constructor and the fallback protocol of the public facade, together with
proofs about them. Line references point into src/clipboard.js.
-/

namespace Clipboard

/-- Model of a JavaScript value, as far as the clipboard event payloads
need one. -/
inductive JSValue where
  | undef
  | null
  | str (s : String)
  | num (n : Nat)
  | obj (id : Nat)
deriving DecidableEq, Repr

/-- A JavaScript property descriptor: value, writable, enumerable,
configurable. -/
structure PropDescriptor where
  value : JSValue
  writable : Bool
  enumerable : Bool
  configurable : Bool
deriving DecidableEq, Repr

/-- Descriptor of a data property created by a plain object literal:
writable, enumerable and configurable are all true. -/
def literalProp (v : JSValue) : PropDescriptor := ⟨v, true, true, true⟩

/-- clipboard.js:95-102 propertiesNames: copies every own property
descriptor of the target, overriding only its enumerable flag (the call
sites pass either true or nothing, i.e. false); writable and configurable
are left exactly as found on the source object. -/
def propertiesNames (target : List (String × PropDescriptor)) (enumerable : Bool) :
    List (String × PropDescriptor) :=
  target.map fun kd => (kd.1, { kd.2 with enumerable := enumerable })

/-- The properties argument of ClipboardCustomEvent (clipboard.js:242). -/
structure EventInitProps where
  target : Option JSValue
  clipboardType : Option String
  text : Option String
  message : Option String
  name : Option String
deriving DecidableEq, Repr

/-- JS truthiness fallback a || b for an optional string a: an absent or
empty (falsy) string falls through to b. -/
def orStr (a : Option String) (b : JSValue) : JSValue :=
  match a with
  | some s => if s = "" then b else JSValue.str s
  | none => b

/-- clipboard.js:270-272: the prototype accessor clipboardType returns
ClipboardDriver.using at the time of the read. -/
def clipboardTypeGetter (usingDriver : Option String) : JSValue :=
  match usingDriver with
  | some s => JSValue.str s
  | none => JSValue.undef

/-- Field names and values of the defaultProperties object literal built by
the ClipboardCustomEvent constructor (clipboard.js:245-260): the common
fields (the prototype getters clipboardType and timeStamp are read once,
here, at construction time), then the type-specific fields added by the
switch on the event type. -/
def eventValueFields (type_ : String) (properties : EventInitProps)
    (nowCtor : Nat) (usingDriver : Option String) : List (String × JSValue) :=
  let defaultProperties :=
    [("type", JSValue.str type_),
     ("target", properties.target.getD JSValue.null),
     ("clipboardType", orStr properties.clipboardType (clipboardTypeGetter usingDriver)),
     ("timeStamp", JSValue.num nowCtor)]
  if type_ = "copy" then
    defaultProperties ++ [("text", orStr properties.text JSValue.null)]
  else if type_ = "error" then
    defaultProperties ++
      [("message", orStr properties.message JSValue.null),
       ("name", orStr properties.name JSValue.null)]
  else defaultProperties

/-- clipboard.js:242-263 ClipboardCustomEvent: the fields of the literal
defaultProperties object (each a plain data property, so writable,
enumerable and configurable) are defined on the event through
defineProperties, i.e. through propertiesNames with enumerable set to
false. The result is the event's own property map. -/
def clipboardCustomEvent (type_ : String) (properties : EventInitProps)
    (nowCtor : Nat) (usingDriver : Option String) : List (String × PropDescriptor) :=
  propertiesNames
    ((eventValueFields type_ properties nowCtor usingDriver).map
      fun kv => (kv.1, literalProp kv.2))
    false

/-- Own-property lookup on an event object. -/
def jsGetOwn : List (String × PropDescriptor) → String → Option PropDescriptor
  | [], _ => none
  | kd :: rest, k => if kd.1 = k then some kd.2 else jsGetOwn rest k

/-- Reading an event property: an own data property shadows the prototype;
otherwise the prototype accessors of clipboard.js:265-273 answer, and the
timeStamp accessor returns the time of the read while clipboardType
returns the catalog's current driver name at the read. -/
def getEventProp (ownProps : List (String × PropDescriptor)) (usingAtRead : Option String)
    (key : String) (nowRead : Nat) : JSValue :=
  match jsGetOwn ownProps key with
  | some d => d.value
  | none =>
    if key = "timeStamp" then JSValue.num nowRead
    else if key = "clipboardType" then clipboardTypeGetter usingAtRead
    else JSValue.undef

/-- Strict-mode assignment to an event property: an own writable data
property is updated in place; assigning to a non-writable own property, or
to one of the getter-only prototype accessors, throws (modelled as none);
any other absent key becomes a fresh own data property. -/
def setEventProp (ownProps : List (String × PropDescriptor)) (key : String) (v : JSValue) :
    Option (List (String × PropDescriptor)) :=
  match jsGetOwn ownProps key with
  | some d =>
    if d.writable then
      some (ownProps.map fun kd => if kd.1 = key then (kd.1, { kd.2 with value := v }) else kd)
    else none
  | none =>
    if key = "timeStamp" ∨ key = "clipboardType" then none
    else some (ownProps ++ [(key, literalProp v)])

/-- One subscription of a channel: clipboard.js:148-151 pushes
a record with the context and the handler; handlers are identified here by
a numeric id. -/
structure ChannelEntry where
  context : Option Nat
  handler : Nat
deriving DecidableEq, Repr

/-- State of the ClipboardEmitter (clipboard.js:127-228): the channels
object (an association list keyed by event name, in key insertion order),
the stray length property that off() with no arguments writes onto that
plain object (clipboard.js:182), and the single module-global debounce
timer (pending fire time, channel name and payload id of the scheduled
dispatch). -/
structure EmitterState where
  channels : List (String × List ChannelEntry)
  lengthProp : Option Nat
  pending : Option (Nat × String × Nat)
deriving DecidableEq, Repr

def lookupChannel : List (String × List ChannelEntry) → String → Option (List ChannelEntry)
  | [], _ => none
  | c :: rest, n => if c.1 = n then some c.2 else lookupChannel rest n

def setChannel : List (String × List ChannelEntry) → String → List ChannelEntry →
    List (String × List ChannelEntry)
  | [], n, subs => [(n, subs)]
  | c :: rest, n, subs => if c.1 = n then (n, subs) :: rest else c :: setChannel rest n subs

def deleteChannel : List (String × List ChannelEntry) → String →
    List (String × List ChannelEntry)
  | [], _ => []
  | c :: rest, n => if c.1 = n then rest else c :: deleteChannel rest n

/-- clipboard.js:143-154 on: creates the channel when absent and appends
the subscription. -/
def emitterOn (s : EmitterState) (n : String) (handler : Nat) (context : Option Nat) :
    EmitterState :=
  let subs := (lookupChannel s.channels n).getD []
  { s with channels := setChannel s.channels n (subs ++ [⟨context, handler⟩]) }

/-- clipboard.js:181-184, off() with no arguments: it executes the
statement channels.length = 0. channels is a plain object and not an
array, so the statement only creates a stray length property on that
object; no channel and no subscription is removed. -/
def emitterOffAll (s : EmitterState) : EmitterState :=
  { s with lengthProp := some 0 }

/-- clipboard.js:186-198, off(name) without a callback: deletes the whole
channel; a no-op when the channel does not exist. -/
def emitterOffName (s : EmitterState) (n : String) : EmitterState :=
  match lookupChannel s.channels n with
  | none => s
  | some _ => { s with channels := deleteChannel s.channels n }

/-- clipboard.js:191-195: forEach over the channel array with splice
inside the callback; forEach fixes the number of visits up front while
splice shifts the remaining entries down, so the scan can skip entries.
The fuel argument is the length of the array when the loop started. -/
def spliceForEach (cb : Nat) : Nat → Nat → List ChannelEntry → List ChannelEntry
  | 0, _, cur => cur
  | fuel + 1, k, cur =>
    match cur[k]? with
    | some entry =>
      spliceForEach cb fuel (k + 1) (if entry.handler = cb then cur.eraseIdx k else cur)
    | none => spliceForEach cb fuel (k + 1) cur

/-- clipboard.js:190-195, off(name, callback) with a function callback:
removes the matching subscriptions through the splice-inside-forEach loop. -/
def emitterOffHandler (s : EmitterState) (n : String) (cb : Nat) : EmitterState :=
  match lookupChannel s.channels n with
  | none => s
  | some subs =>
    { s with channels := setChannel s.channels n (spliceForEach cb subs.length 0 subs) }

/-- The debounce window of the emitter, in milliseconds (clipboard.js:224). -/
def debounceWindow : Nat := 100

/-- clipboard.js:210-227 trigger: returns immediately when the channel was
never created; otherwise it cancels the single module-global timer
(whatever channel that timer was scheduled for) and schedules a dispatch of
this call's channel and payload one debounce window from now. No handler
is invoked synchronously with trigger. -/
def trigger (s : EmitterState) (now : Nat) (n : String) (payload : Nat) : EmitterState :=
  match lookupChannel s.channels n with
  | none => s
  | some _ => { s with pending := some (now + debounceWindow, n, payload) }

/-- clipboard.js:221-223: the timer callback runs the channel's handlers in
registration order with no try/catch around them; a handler that throws
(per the throws oracle) aborts the forEach, so the handlers after it are
not invoked. The result lists the (handler, payload) invocations made. -/
def dispatchList (throws : Nat → Bool) : List ChannelEntry → Nat → List (Nat × Nat)
  | [], _ => []
  | e :: rest, p =>
    (e.handler, p) :: (if throws e.handler then [] else dispatchList throws rest p)

/-- Fire the pending debounce timer if its time has come: dispatches the
scheduled channel's current handler list with the scheduled payload and
clears the timer. -/
def fireIfDue (throws : Nat → Bool) (s : EmitterState) (now : Nat) :
    EmitterState × List (Nat × Nat) :=
  match s.pending with
  | none => (s, [])
  | some (ft, n, p) =>
    if ft ≤ now then
      ({ s with pending := none }, dispatchList throws ((lookupChannel s.channels n).getD []) p)
    else (s, [])

/-- Run a timed sequence of trigger calls: before each call the debounce
timer fires if it is already due; all handler invocations are collected. -/
def runTriggers (throws : Nat → Bool) : EmitterState → List (Nat × String × Nat) →
    EmitterState × List (Nat × Nat)
  | s, [] => (s, [])
  | s, (t, n, p) :: rest =>
    let fr := fireIfDue throws s t
    let res := runTriggers throws (trigger fr.1 t n p) rest
    (res.1, fr.2 ++ res.2)

/-- Times after prev, each no earlier than its predecessor and strictly
inside the predecessor's debounce window. -/
def spacedFromB : Nat → List Nat → Bool
  | _, [] => true
  | prev, t :: rest => (decide (prev ≤ t) && decide (t < prev + debounceWindow)) && spacedFromB t rest

/-- Last element of a list of (time, payload) pairs, with a default. -/
def lastPair (d : Nat × Nat) : List (Nat × Nat) → Nat × Nat
  | [] => d
  | x :: xs => lastPair x xs

/-- A registered driver, reduced to what the catalog and the fallback
protocol consult: the value its checkSupport() reports. -/
structure Driver where
  supports : Bool
deriving DecidableEq, Repr

/-- clipboard.js:347-443, the ClipboardDriver static state: the drivers
storage (an association list in registration order, mirroring the object's
key order) and the current driver name, the field called using in the
source. -/
structure CatalogState where
  drivers : List (String × Driver)
  usingName : Option String
deriving DecidableEq, Repr

namespace ClipboardDriver

def findDriver : List (String × Driver) → String → Option Driver
  | [], _ => none
  | kd :: rest, n => if kd.1 = n then some kd.2 else findDriver rest n

/-- clipboard.js:387-389 has. -/
def has (c : CatalogState) (n : String) : Bool :=
  (findDriver c.drivers n).isSome

/-- clipboard.js:373-379 use: sets the current driver name only when the
name is registered; otherwise the call changes nothing. -/
def use (c : CatalogState) (n : String) : CatalogState :=
  if has c n then { c with usingName := some n } else c

/-- clipboard.js:397-401 get. -/
def get (c : CatalogState) (n : String) : Option Driver :=
  if has c n then findDriver c.drivers n else none

/-- clipboard.js:435-442 remove: when the name is present, calls the
driver's destroy() (recorded in the returned flag) and deletes the entry
from the storage; the using field is not touched by remove. -/
def remove (c : CatalogState) (n : String) : CatalogState × Bool :=
  if has c n then
    ({ c with drivers := c.drivers.filter fun kd => kd.1 != n }, true)
  else (c, false)

end ClipboardDriver

/-- The catalog invariant claimed by the spec: the using field, when set,
names a registered driver. -/
def catalogInvariant (c : CatalogState) : Prop :=
  ∀ n, c.usingName = some n → ClipboardDriver.has c n = true

/-- Actions performed by the fallback error handler, in program order. -/
inductive FbAction where
  | destroyed (n : String)
  | bound (n : String)
  | activated (n : String)
  | replayed (n : String)
deriving DecidableEq, Repr

/-- clipboard.js:665-682: the error listener installed by
ClipboardAPI.copy. On an event whose name is "support" it removes the
driver named by the event's clipboardType, then iterates the remaining
drivers with Object.keys(...).forEach: every driver whose checkSupport()
returns true has copy applied to the saved elements (bound), is made the
using driver (activated), and has a synthetic mousedown dispatched at the
event's target (replayed). The return false inside the callback does not
stop Array.prototype.forEach, so the loop continues past the first
supporting driver. -/
def handleSupportError (c : CatalogState) (eventName eventClipboardType : String) :
    CatalogState × List FbAction :=
  if eventName = "support" then
    let r := ClipboardDriver.remove c eventClipboardType
    let init : CatalogState × List FbAction :=
      (r.1, if r.2 then [FbAction.destroyed eventClipboardType] else [])
    r.1.drivers.foldl
      (fun st kd =>
        if kd.2.supports then
          (ClipboardDriver.use st.1 kd.1,
           st.2 ++ [FbAction.bound kd.1, FbAction.activated kd.1, FbAction.replayed kd.1])
        else st)
      init
  else (c, [])

/-- The spec object handed to the ClipboardDriver constructor, reduced to
its three required members: none means the member is absent, some b means
it is present with b telling whether it is a function; supports is the
value its checkSupport() reports once the driver is registered. -/
structure DriverSpec where
  checkSupport : Option Bool
  copy : Option Bool
  destroy : Option Bool
  supports : Bool
deriving DecidableEq, Repr

/-- clipboard.js:35-39. -/
def requiredDriverMethods : List String := ["checkSupport", "copy", "destroy"]

/-- hasOwnProperty on the spec object for one of the required members. -/
def specHasMethod (spec : DriverSpec) (k : String) : Bool :=
  if k = "checkSupport" then spec.checkSupport.isSome
  else if k = "copy" then spec.copy.isSome
  else if k = "destroy" then spec.destroy.isSome
  else false

/-- Whether a present required member of the spec is a function. -/
def specMethodIsFun (spec : DriverSpec) (k : String) : Bool :=
  if k = "checkSupport" then spec.checkSupport.getD false
  else if k = "copy" then spec.copy.getD false
  else if k = "destroy" then spec.destroy.getD false
  else false

/-- clipboard.js:322-326: the first required method the spec lacks, per the
hasOwnProperty scan in the order of requiredDriverMethods. -/
def firstMissingMethod (spec : DriverSpec) : Option String :=
  requiredDriverMethods.find? fun k => !(specHasMethod spec k)

/-- clipboard.js:328-332 together with the validating prototype setters of
clipboard.js:465-487: the first present-but-not-callable required member
(the assignment through the setter throws). -/
def firstNonFunctionMethod (spec : DriverSpec) : Option String :=
  requiredDriverMethods.find? fun k => specHasMethod spec k && !(specMethodIsFun spec k)

/-- An error trigger call: the name and message properties of the event
the constructor emits. -/
structure ErrEvent where
  name : String
  message : String
deriving DecidableEq, Repr

/-- Result of running the ClipboardDriver constructor: the catalog after
the call, the error trigger calls it made, and what it threw to the
caller. -/
structure ConstructResult where
  cat : CatalogState
  events : List ErrEvent
  thrown : Option String
deriving DecidableEq, Repr

/-- clipboard.js:314-342, the ClipboardDriver constructor, together with
register (clipboard.js:409-427): inside one try block it verifies the
three required methods are own properties of the spec, copies the members
through the validating setters, and registers the driver, where register
throws on a duplicate name. Every failure raised inside the try — a
missing method, a present-but-not-function member, or the duplicate-name
throw of register — lands in the constructor's catch, which makes one
error trigger call with name "driver-error" and the thrown message;
nothing propagates to the caller, so thrown is always none here (the only
statement outside the try, the name assignment, can throw only for a
non-string name, which a String argument rules out). The driver is stored
only after every check has passed, so a failed construction never touches
the catalog. The config merge into globalConfig (clipboard.js:418-422) is
outside the scope of the claims and elided. -/
def constructDriver (cat : CatalogState) (nm : String) (spec : DriverSpec) :
    ConstructResult :=
  match firstMissingMethod spec with
  | some k => ⟨cat, [⟨"driver-error", "Method " ++ k ++ " is not defined"⟩], none⟩
  | none =>
    match firstNonFunctionMethod spec with
    | some k => ⟨cat, [⟨"driver-error", k ++ " method is not a function"⟩], none⟩
    | none =>
      if ClipboardDriver.has cat nm then
        ⟨cat, [⟨"driver-error", "Driver \"" ++ nm ++ "\" already exists"⟩], none⟩
      else
        ⟨{ cat with drivers := cat.drivers ++ [(nm, ⟨spec.supports⟩)] }, [], none⟩

/-- Events the native driver's mousedown handler can trigger. -/
inductive NativeEvent where
  | copyTriggered
  | errorSupport
deriving DecidableEq, Repr

/-- Result of one run of the native driver's mousedown handler. -/
structure NativeMouseDownResult where
  isSupport : Option Bool
  cat : CatalogState
  flashDestroyInvoked : Bool
  events : List NativeEvent
deriving DecidableEq, Repr

/-- clipboard.js:516-518, checkSupport of the native driver: memoizes the
result of document.queryCommandSupported("copy") into isSupport. -/
def nativeCheckSupport (isSupport : Option Bool) (querySupported : Bool) : Option Bool :=
  match isSupport with
  | none => some querySupported
  | some b => some b

/-- clipboard.js:521-558, the native driver's mousedown handler: tries
execCommand("copy") and triggers a "copy" event when it does not throw,
records isSupport = false when it throws; then, when isSupport is still
undetermined, runs checkSupport() and — if that reports support — removes
the "flash" driver from the catalog, invoking its destroy(); finally it
either triggers a "support" error (isSupport falsy) or switches the
catalog's current driver to "native". -/
def nativeMouseDown (isSupport0 : Option Bool) (cat : CatalogState)
    (execCommandThrows : Bool) (querySupported : Bool) : NativeMouseDownResult :=
  let step1 : Option Bool × List NativeEvent :=
    if execCommandThrows then (some false, [])
    else (isSupport0, [NativeEvent.copyTriggered])
  let step2 : Option Bool × CatalogState × Bool :=
    match step1.1 with
    | none =>
      let probed := nativeCheckSupport none querySupported
      if probed.getD false then
        let r := ClipboardDriver.remove cat "flash"
        (probed, r.1, r.2)
      else (probed, cat, false)
    | some b => (some b, cat, false)
  if step2.1.getD false then
    ⟨step2.1, ClipboardDriver.use step2.2.1 "native", step2.2.2, step1.2⟩
  else
    ⟨step2.1, step2.2.1, step2.2.2, step1.2 ++ [NativeEvent.errorSupport]⟩

/-- A dispatch in which no handler throws invokes every handler of the
channel exactly once, in order, with the dispatched payload. -/
theorem dispatchList_no_throw (throws : Nat → Bool) (subs : List ChannelEntry) (p : Nat)
    (h : ∀ e ∈ subs, throws e.handler = false) :
    dispatchList throws subs p = subs.map fun e => (e.handler, p) := by
  induction subs with
  | nil => rfl
  | cons e rest ih =>
    have he : throws e.handler = false := h e (List.mem_cons_self e rest)
    have hr : ∀ x ∈ rest, throws x.handler = false :=
      fun x hx => h x (List.mem_cons_of_mem e hx)
    simp [dispatchList, he, ih hr]

/-- Inside a burst to one channel, every later trigger call lands before
the pending timer is due, so it only replaces the pending dispatch: no
handler runs, the channel map never changes, and at the end the timer
holds the last call's payload. -/
theorem runTriggers_burst (throws : Nat → Bool) (c : String) (hs : List ChannelEntry) :
    ∀ (calls : List (Nat × Nat)) (s : EmitterState) (t0 p0 : Nat),
      lookupChannel s.channels c = some hs →
      s.pending = some (t0 + debounceWindow, c, p0) →
      spacedFromB t0 (calls.map Prod.fst) = true →
      (runTriggers throws s (calls.map fun tp => (tp.1, c, tp.2))).2 = [] ∧
      (runTriggers throws s (calls.map fun tp => (tp.1, c, tp.2))).1.channels = s.channels ∧
      (runTriggers throws s (calls.map fun tp => (tp.1, c, tp.2))).1.pending =
        some ((lastPair (t0, p0) calls).1 + debounceWindow, c, (lastPair (t0, p0) calls).2) := by
  intro calls
  induction calls with
  | nil =>
    intro s t0 p0 hch hp _
    simp [runTriggers, lastPair, hp]
  | cons tp rest ih =>
    intro s t0 p0 hch hp hsp
    obtain ⟨t, p⟩ := tp
    simp only [List.map_cons, spacedFromB, Bool.and_eq_true, decide_eq_true_eq] at hsp
    obtain ⟨⟨hle, hlt⟩, hsp'⟩ := hsp
    have hfire : fireIfDue throws s t = (s, []) := by
      simp [fireIfDue, hp, Nat.not_le.mpr hlt]
    have htrig : trigger s t c p = { s with pending := some (t + debounceWindow, c, p) } := by
      simp [trigger, hch]
    have hch2 : lookupChannel ({ s with pending := some (t + debounceWindow, c, p) } :
        EmitterState).channels c = some hs := hch
    have := ih { s with pending := some (t + debounceWindow, c, p) } t p hch2 rfl hsp'
    simp only [runTriggers, hfire, htrig, lastPair]
    exact ⟨by simp [this.1], this.2.1, this.2.2⟩

/-- C1: within a burst of trigger calls to one channel whose calls are each
spaced less than the debounce window apart, no handler runs during the
burst (none synchronously with any trigger call); once the window elapses
after the last call, the channel's handlers each run exactly once with the
last call's payload, the timer is cleared, and before the window elapses
nothing is dispatched. -/
theorem trigger_debounce_last_payload_only
    (throws : Nat → Bool) (s0 : EmitterState) (c : String) (hs : List ChannelEntry)
    (t1 p1 : Nat) (rest : List (Nat × Nat))
    (hch : lookupChannel s0.channels c = some hs)
    (hp : s0.pending = none)
    (hnt : ∀ e ∈ hs, throws e.handler = false)
    (hsp : spacedFromB t1 (rest.map Prod.fst) = true) :
    (runTriggers throws s0 ((t1, c, p1) :: rest.map fun tp => (tp.1, c, tp.2))).2 = [] ∧
    (∀ now, (lastPair (t1, p1) rest).1 + debounceWindow ≤ now →
      (fireIfDue throws (runTriggers throws s0
          ((t1, c, p1) :: rest.map fun tp => (tp.1, c, tp.2))).1 now).2 =
        hs.map (fun e => (e.handler, (lastPair (t1, p1) rest).2)) ∧
      (fireIfDue throws (runTriggers throws s0
          ((t1, c, p1) :: rest.map fun tp => (tp.1, c, tp.2))).1 now).1.pending = none) ∧
    (∀ now, now < (lastPair (t1, p1) rest).1 + debounceWindow →
      (fireIfDue throws (runTriggers throws s0
          ((t1, c, p1) :: rest.map fun tp => (tp.1, c, tp.2))).1 now).2 = []) := by
  have hfire : fireIfDue throws s0 t1 = (s0, []) := by simp [fireIfDue, hp]
  have htrig : trigger s0 t1 c p1 =
      { s0 with pending := some (t1 + debounceWindow, c, p1) } := by
    simp [trigger, hch]
  have hb := runTriggers_burst throws c hs rest
    { s0 with pending := some (t1 + debounceWindow, c, p1) } t1 p1 hch rfl hsp
  have hrun : runTriggers throws s0 ((t1, c, p1) :: rest.map fun tp => (tp.1, c, tp.2)) =
      ((runTriggers throws { s0 with pending := some (t1 + debounceWindow, c, p1) }
        (rest.map fun tp => (tp.1, c, tp.2))).1,
       [] ++ (runTriggers throws { s0 with pending := some (t1 + debounceWindow, c, p1) }
        (rest.map fun tp => (tp.1, c, tp.2))).2) := by
    simp only [runTriggers, hfire, htrig]
  refine ⟨by simp [hrun, hb.1], ?_, ?_⟩
  · intro now hnow
    rw [hrun]
    simp only [fireIfDue, hb.2.2]
    rw [if_pos hnow]
    constructor
    · simp only [hb.2.1, hch, Option.getD_some]
      exact dispatchList_no_throw throws hs _ hnt
    · rfl
  · intro now hnow
    rw [hrun]
    simp only [fireIfDue, hb.2.2]
    rw [if_neg (Nat.not_le.mpr hnow)]

/-- Concrete emitter state for the C1 witness: one channel with two
handlers. -/
def c1State : EmitterState := ⟨[("copy", [⟨none, 1⟩, ⟨none, 2⟩])], none, none⟩

/-- Witness for C1: a three-call burst at 0, 50 and 120 ms delivers
nothing during the burst and, at 220 ms, exactly one invocation of each
handler with the last payload. -/
theorem trigger_debounce_last_payload_only_witness :
    (runTriggers (fun _ => false) c1State
      [(0, "copy", 10), (50, "copy", 20), (120, "copy", 30)]).2 = [] ∧
    (fireIfDue (fun _ => false) (runTriggers (fun _ => false) c1State
      [(0, "copy", 10), (50, "copy", 20), (120, "copy", 30)]).1 220).2 = [(1, 30), (2, 30)] := by
  have h := trigger_debounce_last_payload_only (fun _ => false) c1State "copy"
    [⟨none, 1⟩, ⟨none, 2⟩] 0 10 [(50, 20), (120, 30)] rfl rfl
    (fun e _ => rfl) (by decide)
  exact ⟨h.1, by simpa using (h.2.1 220 (by decide)).1⟩

/-- Catalog with the active driver not supporting and two further
registered drivers that both report support. -/
def c2Catalog : CatalogState :=
  ⟨[("native", ⟨false⟩), ("alpha", ⟨true⟩), ("beta", ⟨true⟩)], some "native"⟩

/-- C2, evaluated at the failing input: after a "support" error removes the
active driver, the fallback loop binds and activates BOTH remaining
supporting drivers — the return false inside the forEach callback does not
break the loop — and the catalog ends with the last supporting driver
active, not the first. -/
theorem fallback_binds_every_supporting_driver :
    (handleSupportError c2Catalog "support" "native").1.usingName = some "beta" ∧
    (handleSupportError c2Catalog "support" "native").2 =
      [FbAction.destroyed "native",
       FbAction.bound "alpha", FbAction.activated "alpha", FbAction.replayed "alpha",
       FbAction.bound "beta", FbAction.activated "beta", FbAction.replayed "beta"] := by
  decide

/-- Filtering out a key leaves no driver findable under that key. -/
theorem findDriver_filter_ne (l : List (String × Driver)) (n : String) :
    ClipboardDriver.findDriver (l.filter fun kd => kd.1 != n) n = none := by
  induction l with
  | nil => rfl
  | cons kd rest ih =>
    by_cases h : kd.1 = n
    · simp [List.filter_cons, h, ih]
    · simp [List.filter_cons, h, ClipboardDriver.findDriver, ih]

/-- After remove, the removed name is never registered any more. -/
theorem has_after_remove (c : CatalogState) (n : String) :
    ClipboardDriver.has (ClipboardDriver.remove c n).1 n = false := by
  by_cases h : ClipboardDriver.has c n
  · have h2 : (ClipboardDriver.findDriver c.drivers n).isSome = true := h
    simp [ClipboardDriver.remove, ClipboardDriver.has, h2, findDriver_filter_ne]
  · have h2 : ¬ (ClipboardDriver.findDriver c.drivers n).isSome = true := h
    simp [ClipboardDriver.remove, ClipboardDriver.has, h2]

/-- Catalog for the C3 counterexample and witness. -/
def c3Catalog : CatalogState := ⟨[("native", ⟨true⟩), ("flash", ⟨true⟩)], some "native"⟩

/-- C3 counterexample: removing the active driver leaves the using field
still set to the removed name, which is no longer registered — the
invariant is violated and the activation does not become unset. -/
theorem remove_active_leaves_dangling_using :
    (ClipboardDriver.remove c3Catalog "native").1.usingName = some "native" ∧
    ClipboardDriver.has (ClipboardDriver.remove c3Catalog "native").1 "native" = false ∧
    ¬ catalogInvariant (ClipboardDriver.remove c3Catalog "native").1 := by
  refine ⟨by decide, by decide, fun hinv => ?_⟩
  exact absurd (hinv "native" (by decide)) (by decide)

/-- C3 amended: the use operation preserves the invariant that the using
field, when set, names a registered driver; but remove leaves using
unchanged, so after remove(n) where n was the active driver, using still
holds n while n is no longer registered (the activation dangles instead of
becoming unset). -/
theorem use_preserves_invariant_remove_does_not
    (c : CatalogState) (n m : String)
    (hinv : catalogInvariant c) (hactive : c.usingName = some n) :
    catalogInvariant (ClipboardDriver.use c m) ∧
    (ClipboardDriver.remove c n).1.usingName = some n ∧
    ClipboardDriver.has (ClipboardDriver.remove c n).1 n = false := by
  refine ⟨?_, ?_, has_after_remove c n⟩
  · intro k hk
    by_cases h : ClipboardDriver.has c m
    · simp only [ClipboardDriver.use, h, if_true] at hk ⊢
      have : m = k := by simpa using hk
      subst this
      simpa [ClipboardDriver.has] using h
    · simp only [ClipboardDriver.use, h, if_false] at hk ⊢
      exact hinv k hk
  · by_cases h : ClipboardDriver.has c n
    · simp [ClipboardDriver.remove, h, hactive]
    · simp [ClipboardDriver.remove, h, hactive]

/-- Witness for the amended C3: on a concrete catalog with active driver
"native", use keeps the invariant and remove("native") leaves using
dangling at "native". -/
theorem use_preserves_invariant_remove_does_not_witness :
    catalogInvariant (ClipboardDriver.use c3Catalog "flash") ∧
    (ClipboardDriver.remove c3Catalog "native").1.usingName = some "native" ∧
    ClipboardDriver.has (ClipboardDriver.remove c3Catalog "native").1 "native" = false := by
  refine use_preserves_invariant_remove_does_not c3Catalog "native" "flash" ?_ rfl
  intro k hk
  have hk2 : some "native" = some k := hk
  injection hk2 with hk3
  subst hk3
  decide

/-- C4: constructing a driver from a spec that lacks any of the three
required methods leaves the catalog untouched (in particular has(name)
stays false), throws nothing to the caller, and makes exactly one error
trigger call with name "driver-error" whose message names a missing method
(the first missing one in the required order). -/
theorem invalid_spec_rejected_atomically
    (cat : CatalogState) (nm : String) (spec : DriverSpec)
    (hmiss : spec.checkSupport = none ∨ spec.copy = none ∨ spec.destroy = none)
    (hnew : ClipboardDriver.has cat nm = false) :
    (constructDriver cat nm spec).cat = cat ∧
    ClipboardDriver.has (constructDriver cat nm spec).cat nm = false ∧
    (constructDriver cat nm spec).thrown = none ∧
    ∃ k, specHasMethod spec k = false ∧
      (constructDriver cat nm spec).events =
        [⟨"driver-error", "Method " ++ k ++ " is not defined"⟩] := by
  cases hcs : spec.checkSupport with
  | none =>
    have hf : firstMissingMethod spec = some "checkSupport" := by
      simp [firstMissingMethod, requiredDriverMethods, List.find?, specHasMethod, hcs]
    refine ⟨?_, ?_, ?_, "checkSupport", ?_, ?_⟩ <;>
      simp [constructDriver, hf, specHasMethod, hcs, hnew]
  | some b1 =>
    cases hcp : spec.copy with
    | none =>
      have hf : firstMissingMethod spec = some "copy" := by
        simp [firstMissingMethod, requiredDriverMethods, List.find?, specHasMethod, hcs, hcp]
      refine ⟨?_, ?_, ?_, "copy", ?_, ?_⟩ <;>
        simp [constructDriver, hf, specHasMethod, hcs, hcp, hnew]
    | some b2 =>
      cases hd : spec.destroy with
      | none =>
        have hf : firstMissingMethod spec = some "destroy" := by
          simp [firstMissingMethod, requiredDriverMethods, List.find?, specHasMethod,
            hcs, hcp, hd]
        refine ⟨?_, ?_, ?_, "destroy", ?_, ?_⟩ <;>
          simp [constructDriver, hf, specHasMethod, hcs, hcp, hd, hnew]
      | some b3 =>
        exfalso
        rcases hmiss with h | h | h <;> simp [hcs, hcp, hd] at h

/-- Spec missing only its destroy method, for the C4 witness. -/
def missingDestroySpec : DriverSpec := ⟨some true, some true, none, true⟩

/-- Witness for C4: constructing from a spec without destroy on an empty
catalog registers nothing and emits one "driver-error" naming the missing
method. -/
theorem invalid_spec_rejected_atomically_witness :
    (constructDriver ⟨[], none⟩ "broken" missingDestroySpec).cat = ⟨[], none⟩ ∧
    ClipboardDriver.has (constructDriver ⟨[], none⟩ "broken" missingDestroySpec).cat
      "broken" = false ∧
    (constructDriver ⟨[], none⟩ "broken" missingDestroySpec).thrown = none ∧
    ∃ k, specHasMethod missingDestroySpec k = false ∧
      (constructDriver ⟨[], none⟩ "broken" missingDestroySpec).events =
        [⟨"driver-error", "Method " ++ k ++ " is not defined"⟩] :=
  invalid_spec_rejected_atomically ⟨[], none⟩ "broken" missingDestroySpec
    (Or.inr (Or.inr rfl)) rfl

/-- A spec with all three required methods present as functions. -/
def validSpec : DriverSpec := ⟨some true, some true, some true, true⟩

/-- C5 counterexample: constructing a second driver under the name of an
already registered one does NOT throw to the caller — the duplicate-name
error raised by register is caught inside the constructor and converted
into a single "driver-error" notification — while the catalog retains only
the first driver. -/
theorem duplicate_construction_swallowed :
    (constructDriver (constructDriver ⟨[], none⟩ "a" validSpec).cat "a" validSpec).thrown
      = none ∧
    (constructDriver (constructDriver ⟨[], none⟩ "a" validSpec).cat "a" validSpec).events
      = [⟨"driver-error", "Driver \"a\" already exists"⟩] ∧
    (constructDriver (constructDriver ⟨[], none⟩ "a" validSpec).cat "a" validSpec).cat.drivers
      = [("a", ⟨true⟩)] := by
  decide

/-- C5 amended: a second construction under an existing name leaves the
catalog unchanged (the first driver under that name is retained), throws
nothing to the caller, and instead emits exactly one "driver-error"
notification carrying the duplicate-name message. -/
theorem duplicate_construction_emits_error
    (cat : CatalogState) (nm : String) (spec : DriverSpec)
    (hvalid : spec.checkSupport = some true ∧ spec.copy = some true ∧
      spec.destroy = some true)
    (hdup : ClipboardDriver.has cat nm = true) :
    (constructDriver cat nm spec).cat = cat ∧
    (constructDriver cat nm spec).thrown = none ∧
    (constructDriver cat nm spec).events =
      [⟨"driver-error", "Driver \"" ++ nm ++ "\" already exists"⟩] := by
  obtain ⟨h1, h2, h3⟩ := hvalid
  have hm : firstMissingMethod spec = none := by
    simp [firstMissingMethod, requiredDriverMethods, List.find?, specHasMethod, h1, h2, h3]
  have hnf : firstNonFunctionMethod spec = none := by
    simp [firstNonFunctionMethod, requiredDriverMethods, List.find?, specHasMethod,
      specMethodIsFun, h1, h2, h3]
  simp [constructDriver, hm, hnf, hdup]

/-- Witness for the amended C5: constructing "a" again over a catalog that
already holds "a" changes nothing, throws nothing, and emits the
duplicate-name driver-error. -/
theorem duplicate_construction_emits_error_witness :
    (constructDriver ⟨[("a", ⟨true⟩)], none⟩ "a" validSpec).cat =
      ⟨[("a", ⟨true⟩)], none⟩ ∧
    (constructDriver ⟨[("a", ⟨true⟩)], none⟩ "a" validSpec).thrown = none ∧
    (constructDriver ⟨[("a", ⟨true⟩)], none⟩ "a" validSpec).events =
      [⟨"driver-error", "Driver \"" ++ "a" ++ "\" already exists"⟩] :=
  duplicate_construction_emits_error ⟨[("a", ⟨true⟩)], none⟩ "a" validSpec
    ⟨rfl, rfl, rfl⟩ (by decide)

/-- Emitter with one channel and one subscribed handler, for C6. -/
def c6State : EmitterState := ⟨[("copy", [⟨none, 1⟩])], none, none⟩

/-- C6, evaluated at the failing input: off() with no arguments leaves the
channel map exactly as it was — the statement channels.length = 0 only
writes a stray length property on the plain channels object — so a
subsequent trigger still delivers to the subscribed handler once the
debounce window elapses, not to zero handlers. -/
theorem off_no_args_does_not_clear :
    (emitterOffAll c6State).channels = c6State.channels ∧
    (fireIfDue (fun _ => false) (trigger (emitterOffAll c6State) 0 "copy" 7) 100).2 =
      [(1, 7)] := by
  decide

/-- Event init properties for the C7 counterexample. -/
def c7Props : EventInitProps := ⟨some (JSValue.obj 0), some "native", some "hello", none, none⟩

/-- The event constructed for C7: a "copy" event built at time 5 while the
"native" driver is active. -/
def c7Event : List (String × PropDescriptor) :=
  clipboardCustomEvent "copy" c7Props 5 (some "native")

/-- C7 counterexample: the constructed event's type field is writable (the
descriptor copy in propertiesNames only clears the enumerable flag), and an
assignment after construction does change the field. -/
theorem event_fields_writable :
    (jsGetOwn c7Event "type").map PropDescriptor.writable = some true ∧
    (setEventProp c7Event "type" (JSValue.str "changed")).map
      (fun ev2 => getEventProp ev2 (some "native") "type" 99) =
      some (JSValue.str "changed") ∧
    getEventProp c7Event (some "native") "type" 99 = JSValue.str "copy" := by
  decide

/-- C7 amended: every field of a constructed custom event is defined
non-enumerable, but stays writable and configurable, so assignment after
construction can change any field. -/
theorem event_fields_nonenumerable_but_writable
    (type_ : String) (properties : EventInitProps) (nowCtor : Nat)
    (usingDriver : Option String) :
    ∀ kd ∈ clipboardCustomEvent type_ properties nowCtor usingDriver,
      kd.2.enumerable = false ∧ kd.2.writable = true ∧ kd.2.configurable = true := by
  intro kd hkd
  simp only [clipboardCustomEvent, propertiesNames, List.map_map, List.mem_map] at hkd
  obtain ⟨x, _, rfl⟩ := hkd
  exact ⟨rfl, rfl, rfl⟩

/-- Witness for the amended C7: the type field of the concrete C7 event is
non-enumerable yet writable and configurable. -/
theorem event_fields_nonenumerable_but_writable_witness :
    (⟨JSValue.str "copy", true, false, true⟩ : PropDescriptor).enumerable = false ∧
    (⟨JSValue.str "copy", true, false, true⟩ : PropDescriptor).writable = true ∧
    (⟨JSValue.str "copy", true, false, true⟩ : PropDescriptor).configurable = true :=
  event_fields_nonenumerable_but_writable "copy" c7Props 5 (some "native")
    ("type", ⟨JSValue.str "copy", true, false, true⟩) (by decide)

/-- C8 counterexample: in a dispatch of two handlers where the first one
throws, the second handler of the same dispatch is never invoked — an
exception in one handler does prevent the remaining handlers from running. -/
theorem handler_throw_stops_dispatch :
    dispatchList (fun h => h == 1) [⟨none, 1⟩, ⟨none, 2⟩] 5 = [(1, 5)] ∧
    ((dispatchList (fun h => h == 1) [⟨none, 1⟩, ⟨none, 2⟩] 5).contains (2, 5)) = false := by
  decide

/-- C8 amended: handlers run in registration order up to and including the
first handler that throws; every handler after it in the same dispatch is
skipped, because the dispatch loop wraps no try/catch around the handler
calls. -/
theorem handler_throw_aborts_rest
    (throws : Nat → Bool) (pre post : List ChannelEntry) (e : ChannelEntry) (p : Nat)
    (hpre : ∀ x ∈ pre, throws x.handler = false) (he : throws e.handler = true) :
    dispatchList throws (pre ++ e :: post) p =
      (pre.map fun x => (x.handler, p)) ++ [(e.handler, p)] := by
  induction pre with
  | nil => simp [dispatchList, he]
  | cons a rest ih =>
    have ha : throws a.handler = false := hpre a (List.mem_cons_self a rest)
    simp [dispatchList, ha, ih (fun x hx => hpre x (List.mem_cons_of_mem a hx))]

/-- Witness for the amended C8: with handlers 1, 2, 3 where handler 2
throws, the dispatch invokes 1 and 2 and skips 3. -/
theorem handler_throw_aborts_rest_witness :
    dispatchList (fun h => h == 2) ([⟨none, 1⟩] ++ (⟨none, 2⟩ : ChannelEntry) :: [⟨none, 3⟩]) 9 =
      ([(⟨none, 1⟩ : ChannelEntry)].map fun x => (x.handler, 9)) ++ [(2, 9)] :=
  handler_throw_aborts_rest (fun h => h == 2) [⟨none, 1⟩] [⟨none, 3⟩] ⟨none, 2⟩ 9
    (by intro x hx; simp at hx; subst hx; rfl) rfl

/-- Event init properties for the C9 counterexample. -/
def c9Props : EventInitProps := ⟨none, none, some "text", none, none⟩

/-- C9 counterexample: an event constructed at time 5 and read at time 77
answers 5 for timeStamp, not the read time 77 — the own data property
written at construction shadows the prototype's live accessor. -/
theorem timestamp_fixed_at_construction_cex :
    getEventProp (clipboardCustomEvent "copy" c9Props 5 (some "native")) (some "native")
      "timeStamp" 77 = JSValue.num 5 ∧
    JSValue.num 5 ≠ JSValue.num 77 := by
  decide

/-- C9 amended: the constructor reads the prototype's timeStamp accessor
once, at construction time, and defines the result as an own data property
of the event; every later read of timeStamp, at any time and under any
active driver, returns that fixed construction-time value. -/
theorem timestamp_fixed_at_construction
    (type_ : String) (properties : EventInitProps) (nowCtor : Nat)
    (usingCtor usingRead : Option String) (nowRead : Nat) :
    getEventProp (clipboardCustomEvent type_ properties nowCtor usingCtor) usingRead
      "timeStamp" nowRead = JSValue.num nowCtor := by
  simp only [clipboardCustomEvent, eventValueFields, propertiesNames, List.map_map]
  split
  · simp [getEventProp, jsGetOwn, literalProp]
  · split
    · simp [getEventProp, jsGetOwn, literalProp]
    · simp [getEventProp, jsGetOwn, literalProp]

/-- Catalog holding the native and flash drivers, for the C10 witness. -/
def c10Catalog : CatalogState := ⟨[("native", ⟨true⟩), ("flash", ⟨true⟩)], none⟩

/-- C10: on an interaction where the native driver's isSupport is still
undetermined, execCommand does not throw and the probe then reports
support, the mousedown handler removes the "flash" driver from the catalog
— invoking its destroy() — as a side effect of the successful interaction:
the only event triggered is the "copy" event, no error. -/
theorem native_success_removes_flash
    (cat : CatalogState)
    (hflash : ClipboardDriver.has cat "flash" = true) :
    (nativeMouseDown none cat false true).flashDestroyInvoked = true ∧
    ClipboardDriver.has (nativeMouseDown none cat false true).cat "flash" = false ∧
    (nativeMouseDown none cat false true).events = [NativeEvent.copyTriggered] ∧
    (nativeMouseDown none cat false true).isSupport = some true := by
  have h2 : (ClipboardDriver.findDriver cat.drivers "flash").isSome = true := hflash
  refine ⟨?_, ?_, ?_, ?_⟩ <;>
    simp [nativeMouseDown, nativeCheckSupport, ClipboardDriver.remove,
      ClipboardDriver.has, h2, ClipboardDriver.use, findDriver_filter_ne]
  split <;> simp [findDriver_filter_ne]

/-- Witness for C10 at a concrete catalog holding native and flash. -/
theorem native_success_removes_flash_witness :
    (nativeMouseDown none c10Catalog false true).flashDestroyInvoked = true ∧
    ClipboardDriver.has (nativeMouseDown none c10Catalog false true).cat "flash" = false ∧
    (nativeMouseDown none c10Catalog false true).events = [NativeEvent.copyTriggered] ∧
    (nativeMouseDown none c10Catalog false true).isSupport = some true :=
  native_success_removes_flash c10Catalog (by decide)

end Clipboard
